import Mathlib

/-!
Verification development for the XSS scanner's multi-signal detection and
correlation engine (modules/script_analyzer.py, modules/html_parser.py,
modules/visual_analyzer.py, modules/xss_detector.py, utils/report_generator.py).

Strings are modelled as `String` / `List Char`.  The Python `re` patterns used
by the script analyzer are embedded as a small pattern datatype together with
an executable matcher whose boolean outcome (`reSearch`) coincides with
`re.search` for the concrete, anchor-free patterns of the source.  Python
dictionaries with a fixed key set are modelled as structures; keys that a
producer may leave absent are modelled as `Option` fields, and reading an
absent key (Python `KeyError`) is modelled as `Except.error`.
-/

/-- Python `\s` on ASCII text: space, tab, newline, carriage return,
vertical tab, form feed. -/
def isSpaceChar (c : Char) : Bool :=
  c = ' ' || c = '\t' || c = '\n' || c = '\r' || c = '\x0b' || c = '\x0c'

/-- The apostrophe character. -/
def apoChar : Char := Char.ofNat 39

/-- The backtick character. -/
def btChar : Char := Char.ofNat 96

/-- The three quote characters of the character class in the source's
`setTimeout`/`setInterval`/obfuscation regexes. -/
def quoteChars : List Char := [apoChar, '"', btChar]

/-- Pattern syntax covering exactly the regex constructs used in
`script_analyzer.py`: literals, `\s*`, single-character classes,
`[^\x01]+` (Python reads `[^\1]` inside a class as "not chr(1)"),
sequencing, and a quote-binding construct for the group-plus-backreference
shape `(['"`])...\1`. -/
inductive Pat where
  | lit : List Char → Pat
  | ws : Pat
  | cls : List Char → Pat
  | nplus : Char → Pat
  | seq : Pat → Pat → Pat
  | quoteBind : (Char → Pat) → Pat

/-- Consume a literal; at most one way to do it. -/
def pLit : List Char → List Char → List (List Char)
  | [], s => [s]
  | _ :: _, [] => []
  | c :: cs, x :: xs => if x = c then pLit cs xs else []

/-- All suffixes reachable by consuming zero or more characters satisfying
`f` (the ∃-semantics of `f*` under backtracking). -/
def pStar (f : Char → Bool) : List Char → List (List Char)
  | [] => [[]]
  | x :: xs => (x :: xs) :: (if f x then pStar f xs else [])

/-- All suffixes reachable by consuming one or more characters satisfying
`f`. -/
def pPlus (f : Char → Bool) (s : List Char) : List (List Char) :=
  match s with
  | [] => []
  | x :: xs => if f x then pStar f xs else []

/-- Run a pattern at the head of the input, returning every suffix that a
match starting here can leave behind.  Nonemptiness of the result is
equivalent to the existence of a match at this position. -/
def runPat : Pat → List Char → List (List Char)
  | .lit cs, s => pLit cs s
  | .ws, s => pStar isSpaceChar s
  | .cls cs, s =>
    match s with
    | [] => []
    | x :: xs => if cs.contains x then [xs] else []
  | .nplus c, s => pPlus (fun x => x ≠ c) s
  | .seq p q, s => (runPat p s).flatMap (runPat q)
  | .quoteBind k, s =>
    match s with
    | [] => []
    | x :: xs => if quoteChars.contains x then runPat (k x) xs else []

/-- Python `re.search`: does the pattern match at some position? -/
def reSearch (p : Pat) : List Char → Bool
  | [] => !(runPat p []).isEmpty
  | c :: cs => !(runPat p (c :: cs)).isEmpty || reSearch p cs

/-- Text of the first (leftmost) match found by the scan.  Only the boolean
`reSearch` outcome and this text's existence matter to the verified claims;
in patterns with ambiguous extents the chosen extent may differ from
Python's greedy preference, which no claim depends on. -/
def firstMatchText (p : Pat) : List Char → Option (List Char)
  | [] => match runPat p [] with
    | [] => none
    | _ :: _ => some []
  | c :: cs => match runPat p (c :: cs) with
    | r :: _ => some ((c :: cs).take ((c :: cs).length - r.length))
    | [] => firstMatchText p cs

/-- Sequence a list of patterns. -/
def pseq (ps : List Pat) : Pat := ps.foldr Pat.seq (Pat.lit [])

/-- The quote character class as it is written in the source regexes. -/
def quoteClassStr : String := "[" ++ String.mk quoteChars ++ "]"

/-- High-risk signature set of `ScriptAnalyzer.dangerous_js_functions['high_risk']`,
each with the regex source text it is stored under. -/
def highRiskPatterns : List (String × Pat) :=
  [ ("eval\\s*\\(", pseq [.lit "eval".data, .ws, .lit "(".data]),
    ("document\\.write\\s*\\(", pseq [.lit "document.write".data, .ws, .lit "(".data]),
    ("innerHTML\\s*=", pseq [.lit "innerHTML".data, .ws, .lit "=".data]),
    ("outerHTML\\s*=", pseq [.lit "outerHTML".data, .ws, .lit "=".data]),
    ("setTimeout\\s*\\(\\s*" ++ quoteClassStr,
      pseq [.lit "setTimeout".data, .ws, .lit "(".data, .ws, .cls quoteChars]),
    ("setInterval\\s*\\(\\s*" ++ quoteClassStr,
      pseq [.lit "setInterval".data, .ws, .lit "(".data, .ws, .cls quoteChars]),
    ("location\\.href\\s*=", pseq [.lit "location.href".data, .ws, .lit "=".data]),
    ("document\\.cookie\\s*=", pseq [.lit "document.cookie".data, .ws, .lit "=".data]) ]

/-- Medium-risk signature set of `dangerous_js_functions['medium_risk']`. -/
def mediumRiskPatterns : List (String × Pat) :=
  [ ("\\.ajax\\s*\\(", pseq [.lit ".ajax".data, .ws, .lit "(".data]),
    ("fetch\\s*\\(", pseq [.lit "fetch".data, .ws, .lit "(".data]),
    ("XMLHttpRequest", .lit "XMLHttpRequest".data),
    ("\\.src\\s*=", pseq [.lit ".src".data, .ws, .lit "=".data]),
    ("document\\.createElement\\s*\\(",
      pseq [.lit "document.createElement".data, .ws, .lit "(".data]) ]

/-- Obfuscation signature set `obfuscation_patterns`.  In the third regex,
Python reads `[^\1]` inside a character class as "any char other than
chr(1)" (numeric escape), while the bare `\1`/`\2` are backreferences to the
captured quote characters. -/
def obfuscationPatterns : List Pat :=
  [ .lit "String.fromCharCode".data,
    pseq [.lit "atob".data, .ws, .lit "(".data],
    pseq [.lit "[".data, .ws,
      .quoteBind (fun q => pseq [.nplus (Char.ofNat 1), .lit [q], .ws, .lit "+".data, .ws,
        .quoteBind (fun q2 => pseq [.nplus (Char.ofNat 1), .lit [q2], .ws, .lit "]".data])])] ]

/-- One entry of a verdict's `dangerous_functions` list.  The Python dict
carries keys `pattern`, `match` and `risk`; it never carries a `context`
key, which the correlation synthesizer nevertheless reads — that absent key
is modelled by the `context` option being `none`. -/
structure DangerousFunc where
  pattern : String
  matched : String
  risk : String
  context : Option String := none
deriving Repr, DecidableEq

/-- One entry of a `user_input_handling` list as the correlation synthesizer
expects to read it.  The simplified script analyzer never produces such
entries. -/
structure InputHandling where
  context : String := ""
  dangerous_usage : Bool := false
  sanitization_detected : Bool := false
  source : String := ""
deriving Repr, DecidableEq

/-- One entry of a `suspicious_code_segments` list as the correlation
synthesizer expects to read it (`matched = none` models a dict without a
`match` key).  The simplified script analyzer never produces such
entries. -/
structure CodeSegment where
  type : String := ""
  matched : Option String := none
  function : String := ""
deriving Repr, DecidableEq

/-- A per-script verdict (`_analyze_script_simplified` result dict).
`user_input_handling` and `suspicious_code_segments` are keys the
correlation synthesizer probes with `.get`/`in`; the simplified analyzer
never writes them, so it always leaves them `none`. -/
structure ScriptResult where
  id : String
  risk_level : String
  risk_score : Nat
  dangerous_functions : List DangerousFunc
  obfuscation_detected : Bool
  user_input_handling : Option (List InputHandling) := none
  suspicious_code_segments : Option (List CodeSegment) := none
deriving Repr, DecidableEq

/-- The `dangerous_functions` entry appended for one matched signature:
pattern source text, first match text, risk tier. -/
def mkDangerFunc (content : List Char) (risk : String) (np : String × Pat) :
    DangerousFunc :=
  { pattern := np.1,
    matched := String.mk ((firstMatchText np.2 content).getD []),
    risk := risk }

/-- The unclamped score computed from the collected dangerous functions and
the obfuscation flag: `25` per high entry, `10` per medium entry, `20` for
obfuscation. -/
def scriptRawScore (dangerous : List DangerousFunc) (obf : Bool) : Nat :=
  (dangerous.filter (fun f => f.risk == "high")).length * 25
  + (dangerous.filter (fun f => f.risk == "medium")).length * 10
  + (if obf then 20 else 0)

/-- The risk-level banding (`>=70` high, `>=40` medium, `>=10` low, else
safe). -/
def levelBand (r : Nat) : String :=
  if r ≥ 70 then "high"
  else if r ≥ 40 then "medium"
  else if r ≥ 10 then "low"
  else "safe"

/-- `ScriptAnalyzer._analyze_script_simplified`: match the high-risk set,
match the medium-risk set only when no high-risk signature matched, detect
obfuscation, then score `25*high + 10*medium (+20 if obfuscated)` clamped
to 100; the risk level is banded from the unclamped score. -/
def analyzeScriptSimplified (content : List Char) (scriptId : Nat) : ScriptResult :=
  let highMatched := highRiskPatterns.filter (fun np => reSearch np.2 content)
  let highFuncs : List DangerousFunc := highMatched.map (mkDangerFunc content "high")
  let medFuncs : List DangerousFunc :=
    if highMatched.isEmpty then
      (mediumRiskPatterns.filter (fun np => reSearch np.2 content)).map
        (mkDangerFunc content "medium")
    else []
  let dangerous := highFuncs ++ medFuncs
  let obf := obfuscationPatterns.any (fun p => reSearch p content)
  let rawScore := scriptRawScore dangerous obf
  { id := "script_" ++ toString scriptId,
    risk_level := levelBand rawScore,
    risk_score := min 100 rawScore,
    dangerous_functions := dangerous,
    obfuscation_detected := obf }

/-- A script record handed to `ScriptAnalyzer.analyze` (keys `type` and
`content` may be absent). -/
structure ScriptInput where
  type : Option String := none
  content : Option String := none
deriving Repr, DecidableEq

/-- Results dict of `ScriptAnalyzer.analyze`. -/
structure ScriptAnalysisResults where
  scripts_analyzed : Nat
  high_risk_scripts : Nat
  medium_risk_scripts : Nat
  script_analysis : List ScriptResult
deriving Repr, DecidableEq

/-- The per-script loop of `ScriptAnalyzer.analyze`, keeping the enumerate
index even across skipped scripts. -/
def analyzeScriptsGo : Nat → List ScriptInput → List ScriptResult
  | _, [] => []
  | i, s :: rest =>
    if s.type == some "external" && (s.content.getD "").isEmpty then
      analyzeScriptsGo (i + 1) rest
    else if (s.content.getD "").isEmpty then
      analyzeScriptsGo (i + 1) rest
    else
      analyzeScriptSimplified (s.content.getD "").data i :: analyzeScriptsGo (i + 1) rest

/-- `ScriptAnalyzer.analyze`: skip external scripts without content and
scripts with empty content, analyze the rest, and count the high/medium
verdicts. -/
def analyzeScripts (scripts : List ScriptInput) : ScriptAnalysisResults :=
  let rs := analyzeScriptsGo 0 scripts
  { scripts_analyzed := scripts.length,
    high_risk_scripts := (rs.filter (fun r => r.risk_level == "high")).length,
    medium_risk_scripts := (rs.filter (fun r => r.risk_level == "medium")).length,
    script_analysis := rs }

/-- Number of distinct high-risk signatures matching the content. -/
def numHighMatched (content : List Char) : Nat :=
  (highRiskPatterns.filter (fun np => reSearch np.2 content)).length

/-- Number of distinct medium-risk signatures matching the content. -/
def numMedMatched (content : List Char) : Nat :=
  (mediumRiskPatterns.filter (fun np => reSearch np.2 content)).length

/-- Whether some obfuscation signature matches the content. -/
def obfMatched (content : List Char) : Bool :=
  obfuscationPatterns.any (fun p => reSearch p content)

/-- The risk score exactly as the spec words it: 25 per distinct high-risk
signature, plus 10 per distinct medium-risk signature counted only when no
high-risk signature matched, plus 20 for obfuscation, clamped to 100. -/
def c2SpecScore (content : List Char) : Nat :=
  min 100 (25 * numHighMatched content
    + 10 * (if numHighMatched content = 0 then numMedMatched content else 0)
    + (if obfMatched content then 20 else 0))

/-- The risk level as the spec words it, banded from the (clamped) score:
`>=70` high, `>=40` medium, `>=10` low, else safe. -/
def c2SpecLevel (content : List Char) : String :=
  levelBand (c2SpecScore content)

/-- Python `str.lower()` on the ASCII strings this scanner handles. -/
def lowerStr (s : String) : String := String.mk (s.data.map Char.toLower)

/-- Python slicing `s[:n]`. -/
def takeStr (n : Nat) (s : String) : String := String.mk (s.data.take n)

/-- Python `needle in hay` on strings. -/
def strContains (needle hay : String) : Bool := decide (needle.data <:+: hay.data)

/-- Python `hay.startswith(pre)` on strings. -/
def strStarts (pre hay : String) : Bool := decide (pre.data <+: hay.data)

/-- The ~25 canonical DOM event-attribute names of `HTMLParser.event_attributes`. -/
def eventAttributes : List String :=
  [ "onload", "onerror", "onclick", "onmouseover", "onmouseout",
    "onkeypress", "onkeydown", "onkeyup", "onchange", "onfocus",
    "onblur", "onsubmit", "onreset", "ondblclick", "oncontextmenu",
    "ondrag", "ondrop", "onmousedown", "onmouseup", "onpaste",
    "oncut", "oncopy", "onselect", "onready", "onunload" ]

/-- An option child of a select element, as `_analyze_inputs` reads it
(`value` attribute defaulted to `""`, text content, presence of the
`selected` attribute). -/
structure OptionInfo where
  value : String := ""
  text : String := ""
  selected : Bool := false
deriving Repr, DecidableEq

/-- An input surface element as delivered by the lenient DOM parse:
attribute list in document order, plus, for textareas, the text content
and, for selects, the option children.  `inForm` records whether the
element sits inside a form.  BeautifulSoup's `html.parser` lowercases
attribute names while parsing; that normalisation is applied by
`normalizeField` below. -/
inductive FormField where
  | inputTag (attrs : List (String × String)) (inForm : Bool)
  | textareaTag (attrs : List (String × String)) (text : String) (inForm : Bool)
  | selectTag (attrs : List (String × String)) (options : List OptionInfo) (inForm : Bool)
deriving Repr, DecidableEq

/-- The per-element result dict built by `_analyze_inputs`.  A missing
`xss_vector` key is modelled as `none`. -/
structure InputInfo where
  tag : String
  type : String := "text"
  name : String := ""
  id : String := ""
  value : String := ""
  options : List OptionInfo := []
  attributes : List (String × String) := []
  suspicious : Bool := false
  xss_vector : Option String := none
  parent_form : Bool := false
deriving Repr, DecidableEq

/-- One step of the attribute loop for an `input` tag: store the attribute
(unless it is one of type/name/id/value), flag event attributes, and flag
attribute values containing `javascript:`; each finding overwrites
`xss_vector`. -/
def inputAttrStep (st : InputInfo) (av : String × String) : InputInfo :=
  let st1 :=
    if ["type", "name", "id", "value"].contains av.1 then st
    else { st with attributes := st.attributes ++ [av] }
  let st2 :=
    if eventAttributes.contains av.1 then
      { st1 with suspicious := true,
                 xss_vector := some ("Event handler: " ++ av.1 ++ "=" ++ av.2) }
    else st1
  if strContains "javascript:" (lowerStr av.2) then
    { st2 with suspicious := true,
               xss_vector := some ("JavaScript in attribute: " ++ av.1 ++ "=" ++ av.2) }
  else st2

/-- The `input`-tag branch of `_analyze_inputs`. -/
def analyzeInputTag (attrs : List (String × String)) (inForm : Bool) : InputInfo :=
  let base : InputInfo :=
    { tag := "input",
      type := (attrs.lookup "type").getD "text",
      name := (attrs.lookup "name").getD "",
      id := (attrs.lookup "id").getD "",
      value := (attrs.lookup "value").getD "",
      parent_form := inForm }
  attrs.foldl inputAttrStep base

/-- One step of the attribute loop for a `textarea` tag: store the
attribute (unless name/id) and flag event attributes.  Unlike the `input`
branch, attribute values are never checked for `javascript:`. -/
def textareaAttrStep (st : InputInfo) (av : String × String) : InputInfo :=
  let st1 :=
    if ["name", "id"].contains av.1 then st
    else { st with attributes := st.attributes ++ [av] }
  if eventAttributes.contains av.1 then
    { st1 with suspicious := true,
               xss_vector := some ("Event handler: " ++ av.1 ++ "=" ++ av.2) }
  else st1

/-- The `textarea`-tag branch of `_analyze_inputs`. -/
def analyzeTextareaTag (attrs : List (String × String)) (text : String) (inForm : Bool) :
    InputInfo :=
  let base : InputInfo :=
    { tag := "textarea",
      name := (attrs.lookup "name").getD "",
      id := (attrs.lookup "id").getD "",
      value := text,
      parent_form := inForm }
  attrs.foldl textareaAttrStep base

/-- One step of the option loop for a `select` tag: flag option values
containing `javascript:`. -/
def selectOptionStep (st : InputInfo) (o : OptionInfo) : InputInfo :=
  if strContains "javascript:" (lowerStr o.value) then
    { st with suspicious := true,
              xss_vector := some ("JavaScript in option value: " ++ o.value) }
  else st

/-- The `select`-tag branch of `_analyze_inputs`: scan option values, then
the attribute loop (event attributes only). -/
def analyzeSelectTag (attrs : List (String × String)) (options : List OptionInfo)
    (inForm : Bool) : InputInfo :=
  let base : InputInfo :=
    { tag := "select",
      name := (attrs.lookup "name").getD "",
      id := (attrs.lookup "id").getD "",
      options := options,
      parent_form := inForm }
  let st1 := options.foldl selectOptionStep base
  attrs.foldl textareaAttrStep st1

/-- BeautifulSoup's `html.parser` lowercases attribute names during the
parse; attribute values are untouched. -/
def normalizeField : FormField → FormField
  | .inputTag attrs p => .inputTag (attrs.map (fun av => (lowerStr av.1, av.2))) p
  | .textareaTag attrs t p => .textareaTag (attrs.map (fun av => (lowerStr av.1, av.2))) t p
  | .selectTag attrs os p => .selectTag (attrs.map (fun av => (lowerStr av.1, av.2))) os p

/-- `_analyze_inputs` on already-parsed elements: all inputs first, then
all textareas, then all selects (three `find_all` passes). -/
def analyzeInputs (fields : List FormField) : List InputInfo :=
  fields.filterMap (fun f => match f with
    | .inputTag attrs p => some (analyzeInputTag attrs p)
    | _ => none)
  ++ fields.filterMap (fun f => match f with
    | .textareaTag attrs t p => some (analyzeTextareaTag attrs t p)
    | _ => none)
  ++ fields.filterMap (fun f => match f with
    | .selectTag attrs os p => some (analyzeSelectTag attrs os p)
    | _ => none)

/-- The input-surface part of `HTMLParser.parse`: lenient parse (attribute
names lowercased) followed by `_analyze_inputs`. -/
def parseInputs (fields : List FormField) : List InputInfo :=
  analyzeInputs (fields.map normalizeField)

/-- An anchor element carrying an `href` (the `find_all('a', href=True)`
selection), with its full attribute mapping in document order. -/
structure Anchor where
  href : String
  text : String := ""
  attrs : List (String × String) := []
deriving Repr, DecidableEq

/-- The per-link dict built by `_analyze_links`; absent keys modelled by
`none`/`false`/`[]`. -/
structure LinkInfo where
  href : String
  text : String
  suspicious : Bool := false
  xss_vector : Option String := none
  has_parameters : Bool := false
  parameters : List (String × String) := []
deriving Repr, DecidableEq

/-- Hex digit value, for percent-decoding. -/
def hexVal (c : Char) : Option Nat :=
  if '0' ≤ c ∧ c ≤ '9' then some (c.toNat - 48)
  else if 'a' ≤ c ∧ c ≤ 'f' then some (c.toNat - 87)
  else if 'A' ≤ c ∧ c ≤ 'F' then some (c.toNat - 55)
  else none

/-- Python `urllib.parse.unquote_plus` restricted to single-byte escapes:
`+` becomes a space and `%hh` becomes the character with that code;
invalid escapes are left as written. -/
def unquotePlus : List Char → List Char
  | [] => []
  | '+' :: rest => ' ' :: unquotePlus rest
  | '%' :: a :: b :: rest =>
    match hexVal a, hexVal b with
    | some x, some y => Char.ofNat (16 * x + y) :: unquotePlus rest
    | _, _ => '%' :: unquotePlus (a :: b :: rest)
  | c :: rest => c :: unquotePlus rest

/-- Python `str.split('&')`: split into fields at every ampersand, keeping
empty fields. -/
def splitOnAmp : List Char → List (List Char)
  | [] => [[]]
  | c :: rest =>
    if c = '&' then [] :: splitOnAmp rest
    else
      match splitOnAmp rest with
      | [] => [[c]]
      | g :: gs => (c :: g) :: gs

/-- Python `urllib.parse.parse_qsl` with default options: split the query
on `&`, skip empty fields, skip fields without `=`, skip fields whose raw
value is empty, and percent-decode names and values. -/
def parseQsl (query : String) : List (String × String) :=
  (splitOnAmp query.data).filterMap (fun field =>
    if field.isEmpty then none
    else
      let name := field.takeWhile (fun c => c ≠ '=')
      if name.length = field.length then none
      else
        let rawValue := field.drop (name.length + 1)
        if rawValue.isEmpty then none
        else some (String.mk (unquotePlus name), String.mk (unquotePlus rawValue)))

/-- Worker for `firstValues`, remembering the names already emitted. -/
def firstValuesGo (seen : List String) : List (String × String) → List (String × String)
  | [] => []
  | kv :: rest =>
    if seen.contains kv.1 then firstValuesGo seen rest
    else kv :: firstValuesGo (kv.1 :: seen) rest

/-- The `{k: v[0]}` comprehension over the `parse_qs` dict: one entry per
distinct name, in first-occurrence order, carrying the first value. -/
def firstValues (ps : List (String × String)) : List (String × String) :=
  firstValuesGo [] ps

/-- Extract the query component the way `urlparse` does for the absolute
URLs this code path sees: the part after the first `?` of the part before
the first `#`. -/
def rawQueryOf (href : String) : String :=
  let pre := href.data.takeWhile (fun c => c ≠ '#')
  String.mk ((pre.dropWhile (fun c => c ≠ '?')).drop 1)

/-- `urlparse` + `parse_qs` as used on absolute URLs, returning `none` when
`urlparse` raises (mismatched square bracket in the authority part, the
malformed-URL case the source catches with `try`/`except`). -/
def parseQueryParams (href : String) : Option (List (String × String)) :=
  let s := href.data
  let afterScheme := (s.dropWhile (fun c => c ≠ ':')).drop 1
  let netloc :=
    if afterScheme.take 2 = ['/', '/'] then
      (afterScheme.drop 2).takeWhile (fun c => ¬(c = '/' ∨ c = '?' ∨ c = '#'))
    else []
  if netloc.contains '[' ≠ netloc.contains ']' then none
  else some (parseQsl (rawQueryOf href))

/-- The four needles checked against each decoded parameter value. -/
def paramNeedles : List String := ["<script", "javascript:", "onerror=", "onload="]

/-- Whether a decoded parameter value is flagged. -/
def suspiciousParamValue (v : String) : Bool :=
  paramNeedles.any (fun n => strContains n (lowerStr v))

/-- One step of the parameter loop: each flagged value overwrites the
vector. -/
def linkParamStep (st : LinkInfo) (kv : String × String) : LinkInfo :=
  if suspiciousParamValue kv.2 then
    { st with suspicious := true,
              xss_vector := some ("Suspicious parameter: " ++ kv.1 ++ "=" ++ takeStr 100 kv.2) }
  else st

/-- One step of the link's attribute loop: any event attribute (name
compared lowercased) flags the link. -/
def linkAttrStep (st : LinkInfo) (av : String × String) : LinkInfo :=
  if eventAttributes.contains (lowerStr av.1) then
    { st with suspicious := true,
              xss_vector := some ("Event handler in link: " ++ av.1 ++ "=" ++ av.2) }
  else st

/-- The per-anchor body of `_analyze_links`: `javascript:` prefix first;
otherwise a relative URL containing `?` is only marked parameter-bearing,
while an absolute `http:`/`https:`/`ftp:` URL containing `?` has its
parameters parsed (first value per name) and scanned; a `urlparse` failure
leaves the link untouched; finally inline event attributes flag the
link. -/
def processLink (a : Anchor) : LinkInfo :=
  let base : LinkInfo := { href := a.href, text := takeStr 50 a.text }
  let lhref := lowerStr a.href
  let st1 :=
    if strStarts "javascript:" lhref then
      { base with suspicious := true,
                  xss_vector := some ("JavaScript URI: " ++ takeStr 100 a.href) }
    else if a.href.data.contains '?' &&
        !(strStarts "http:" lhref || strStarts "https:" lhref || strStarts "ftp:" lhref) then
      { base with has_parameters := true }
    else if a.href.data.contains '?' then
      match parseQueryParams a.href with
      | none => base
      | some ps =>
        let params := firstValues ps
        let st := { base with parameters := params, has_parameters := true }
        params.foldl linkParamStep st
    else base
  a.attrs.foldl linkAttrStep st1

/-- `_analyze_links`: anchors are retained only when suspicious or
parameter-bearing. -/
def analyzeLinks (anchors : List Anchor) : List LinkInfo :=
  (anchors.map processLink).filter (fun li => li.suspicious || li.has_parameters)

/-- One aggregated event-handler binding from `_analyze_event_handlers`
(`klass` models the Python dict key `class`). -/
structure EventBinding where
  tag_name : String
  id : String := ""
  klass : String := ""
  handlers : List (String × String) := []
  content_preview : String := ""
deriving Repr, DecidableEq

/-- One inline-script finding from `_analyze_inline_scripts`. -/
structure InlineScriptFinding where
  id : String
  content : String := ""
  attributes : List (String × String) := []
  suspicious : Bool := false
  suspicious_patterns : List String := []
deriving Repr, DecidableEq

/-- One raw-markup pattern match from `_find_suspicious_patterns`. -/
structure PatternMatchInfo where
  pattern : String
  matched : String
  position : Nat × Nat := (0, 0)
  context : String := ""
deriving Repr, DecidableEq

/-- The structural-findings bundle returned by `HTMLParser.parse`, in the
shape the correlation synthesizer consumes (the `forms` list is not read by
any correlation pass and is omitted). -/
structure HtmlAnalysis where
  inputs : List InputInfo := []
  event_handlers : List EventBinding := []
  inline_scripts : List InlineScriptFinding := []
  suspicious_patterns : List PatternMatchInfo := []
  links : List LinkInfo := []
  base_url : Option String := none
deriving Repr, DecidableEq

/-- A candidate input field inferred from the screenshot. -/
structure VisualField where
  id : String
  x : Nat := 0
  y : Nat := 0
  width : Nat := 0
  height : Nat := 0
  type : String
deriving Repr, DecidableEq

/-- Results dict of `VisualAnalyzer.analyze` on a readable image. -/
structure VisualResults where
  input_fields : List VisualField
  image_dimensions : Nat × Nat
deriving Repr, DecidableEq

/-- One external contour's bounding box, with the low-texture test
`np.std(roi) < 40` carried as a precomputed boolean (pixel statistics are
not re-modelled; no claim depends on them). -/
structure Contour where
  x : Nat := 0
  y : Nat := 0
  w : Nat := 0
  h : Nat := 0
  stdLt40 : Bool := true
deriving Repr, DecidableEq

/-- A decoded screenshot: dimensions plus the external contours the
edge-detection pipeline finds in it. -/
structure ImageData where
  width : Nat
  height : Nat
  contours : List Contour := []
deriving Repr, DecidableEq

/-- The environment the visual analyzer runs in: file existence and image
decoding (`cv2.imread` returning `none` models both an unreadable file and
a decode failure). -/
structure VaEnv where
  pathExists : String → Bool
  imread : String → Option ImageData

/-- `VisualAnalyzer._detect_input_fields`: keep a contour's bounding box
when `2.5 < w/h < 10`, `w > 100`, `20 < h < 60` and the enclosed region is
low-texture; the rational inequalities are the exact real-number content of
the Python float comparisons at these magnitudes.  Type is `text_input`
when the aspect ratio exceeds 5. -/
def detectInputFields (img : ImageData) : List VisualField :=
  img.contours.enum.filterMap (fun ic =>
    let c := ic.2
    if c.h > 0 && 5 * c.h < 2 * c.w && c.w < 10 * c.h &&
        c.w > 100 && 20 < c.h && c.h < 60 && c.stdLt40 then
      some { id := "input_" ++ toString ic.1, x := c.x, y := c.y,
             width := c.w, height := c.h,
             type := if 5 * c.h < c.w then "text_input" else "input_field" }
    else none)

/-- `VisualAnalyzer.analyze`: `none` when the path does not exist or the
image cannot be read; otherwise the detected fields and dimensions. -/
def visualAnalyze (env : VaEnv) (path : String) : Option VisualResults :=
  if env.pathExists path = false then none
  else
    match env.imread path with
    | none => none
    | some img =>
      some { input_fields := detectInputFields img,
             image_dimensions := (img.width, img.height) }

/-- The screenshot step of `XSSDetector.analyze`: the visual analyzer is
invoked only when a screenshot path is present and exists; otherwise the
visual analysis is `None`. -/
def detectorVisual (env : VaEnv) (screenshotPath : Option String) : Option VisualResults :=
  match screenshotPath with
  | none => none
  | some p => if env.pathExists p then visualAnalyze env p else none

/-- A vulnerability record as built by the correlation synthesizer.  All
record dicts share type/subtype/url/severity/description/recommendation;
the remaining fields model the type-specific payload keys that some claims
read (opaque `evidence` payloads are not re-modelled). -/
structure Vuln where
  type : String
  subtype : String := ""
  url : String
  severity : String
  description : String
  recommendation : String
  screenshot : Option String := none
  vulnerability : String := ""
  element_type : String := ""
  element_id : String := ""
  element_name : String := ""
  element_class : String := ""
  key_issues : List String := []
  script_id : String := ""
  risk_score : Option Nat := none
  handlers : List (String × String) := []
  link_url : String := ""
  link_text : String := ""
  patterns : List String := []
deriving Repr, DecidableEq

/-- The `input_xss` record built in the no-visual-analysis branch of
`_find_input_vulnerabilities`. -/
def inputVulnNoVisual (url : String) (screenshotPath : Option String)
    (i : InputInfo) : Vuln :=
  let vector := i.xss_vector.getD "Atributo suspeito"
  { type := "input_xss",
    subtype := "suspicious_attribute",
    url := url,
    element_type := i.tag,
    element_id := i.id,
    element_name := i.name,
    vulnerability := vector,
    severity := "Médio",
    screenshot := screenshotPath,
    description := "Campo de entrada com potencial vulnerabilidade XSS: " ++ vector,
    recommendation := "Implementar validação de entrada e sanitização dos dados do usuário" }

/-- `_find_matching_html_elements`: a visual `text_input` matches text-like
inputs and textareas; any other visual field matches every element. -/
def findMatchingHtmlElements (vi : VisualField) (elems : List InputInfo) : List InputInfo :=
  if vi.type == "text_input" then
    elems.filter (fun e =>
      (e.tag == "input" && ["text", "password", "email", "search"].contains e.type)
      || e.tag == "textarea")
  else elems

/-- The inner scan of `_find_input_vulnerabilities`: the last script result
with a `user_input_handling` entry whose context mentions the id (or else
the name) and is flagged dangerous provides the evidence; the flag itself
is sticky. -/
def dangerousEvidence (inputId inputName : String) (scriptResults : List ScriptResult) :
    Option InputHandling :=
  scriptResults.foldl (fun acc sr =>
    match sr.user_input_handling with
    | none => acc
    | some ihs =>
      match ihs.find? (fun ih =>
        ih.dangerous_usage &&
        ((!inputId.isEmpty && strContains inputId ih.context) ||
         (!inputName.isEmpty && strContains inputName ih.context))) with
      | some ih => some ih
      | none => acc) none

/-- The `input_xss` record built for a visual/structural match. -/
def inputVulnVisual (url : String) (screenshotPath : Option String)
    (hi : InputInfo) (dangerous : Bool) : Vuln :=
  { type := "input_xss",
    subtype := if dangerous then "input_with_dangerous_usage" else "suspicious_input",
    url := url,
    element_type := hi.tag,
    element_id := hi.id,
    element_name := hi.name,
    vulnerability :=
      if hi.suspicious then hi.xss_vector.getD "Manipulação insegura de entrada"
      else "Uso perigoso em script",
    severity := if dangerous then "Alto" else "Médio",
    screenshot := screenshotPath,
    description := "Campo de entrada com potencial vulnerabilidade XSS. " ++
      (if hi.suspicious then "Encontrado: " ++ hi.xss_vector.getD ""
       else "Entrada usada em contexto perigoso sem sanitização adequada."),
    recommendation := "Implementar validação de entrada e sanitização dos dados do usuário. Utilizar funções seguras para manipulação do DOM." }

/-- `_find_input_vulnerabilities`: without visual analysis every suspicious
structural input yields a Médio record; with visual analysis each visual
field is correlated against matching structural inputs and records are
emitted for suspicious or dangerously-used matches. -/
def findInputVulns (url : String) (visual : Option VisualResults)
    (ha : HtmlAnalysis) (scriptResults : List ScriptResult)
    (screenshotPath : Option String) : List Vuln :=
  match visual with
  | none =>
    ha.inputs.filterMap (fun i =>
      if i.suspicious then some (inputVulnNoVisual url screenshotPath i) else none)
  | some v =>
    v.input_fields.flatMap (fun vi =>
      (findMatchingHtmlElements vi ha.inputs).filterMap (fun hi =>
        let ev := dangerousEvidence hi.id hi.name scriptResults
        let dangerous := ev.isSome
        if hi.suspicious || dangerous then
          some (inputVulnVisual url screenshotPath hi dangerous)
        else none))

/-- The high-risk event names of `_find_event_vulnerabilities`. -/
def highRiskEvents : List String :=
  ["onclick", "onkeypress", "onkeyup", "onkeydown", "onchange", "onsubmit",
   "onload", "onerror"]

/-- The danger needles of `_find_event_vulnerabilities`, verbatim from the
source — note that `innerHTML` is compared against lowercased handler code
and therefore can never match. -/
def eventDangerNeedles : List String :=
  ["eval(", "function(", "document.write", "innerHTML", "location"]

/-- The first critical handler entry: a high-risk event (name lowercased)
whose code, lowercased, contains a danger needle. -/
def findCriticalHandler (handlers : List (String × String)) : Option (String × String) :=
  handlers.find? (fun ec =>
    highRiskEvents.contains (lowerStr ec.1) &&
    eventDangerNeedles.any (fun d => strContains d (lowerStr ec.2)))

/-- The `event_handler_xss` record built for one binding. -/
def mkEventVuln (url : String) (screenshotPath : Option String)
    (h : EventBinding) : Vuln :=
  let critical := findCriticalHandler h.handlers
  let reason :=
    match critical with
    | some ec => "Manipulador de evento " ++ ec.1 ++ " contém código perigoso: "
        ++ takeStr 50 ec.2 ++ "..."
    | none => ""
  { type := "event_handler_xss",
    subtype := if critical.isSome then "critical_handler" else "suspicious_handler",
    url := url,
    element_type := h.tag_name,
    element_id := h.id,
    element_class := h.klass,
    handlers := h.handlers,
    vulnerability :=
      if critical.isSome then reason else "Manipulador de evento pode permitir XSS",
    severity := if critical.isSome then "Alto" else "Médio",
    screenshot := screenshotPath,
    description :=
      if critical.isSome then reason
      else "Manipulador de evento que pode permitir a execução de código malicioso",
    recommendation := "Evitar código JavaScript inline em atributos de eventos. Implementar validação e sanitização." }

/-- `_find_event_vulnerabilities`: one record per aggregated binding. -/
def findEventVulns (url : String) (screenshotPath : Option String)
    (bindings : List EventBinding) : List Vuln :=
  bindings.map (mkEventVuln url screenshotPath)

/-- The key-issue built for one dangerous function in the high-risk branch
of `_find_script_vulnerabilities`.  The f-string reads `func['context']`,
a key `_analyze_script_simplified` never writes; reading it raises
`KeyError`, modelled as `Except.error`. -/
def highKeyIssueOfFunc (f : DangerousFunc) : Except String (Option String) :=
  if f.risk == "high" then
    match f.context with
    | none => Except.error "KeyError: context"
    | some c =>
      Except.ok (some ("Função perigosa: " ++ f.matched ++ " em contexto: " ++ c))
  else Except.ok none

/-- The loop over the first three dangerous functions, stopping at the
first `KeyError`. -/
def collectHighIssues : List DangerousFunc → Except String (List String)
  | [] => Except.ok []
  | f :: fs =>
    match highKeyIssueOfFunc f with
    | Except.error e => Except.error e
    | Except.ok o =>
      match collectHighIssues fs with
      | Except.error e => Except.error e
      | Except.ok rest => Except.ok (o.toList ++ rest)

/-- The unsanitised-input key issues (always empty for analyzer-produced
verdicts, whose `user_input_handling` key is absent). -/
def inputHandlingIssues (s : ScriptResult) : List String :=
  ((s.user_input_handling.getD []).take 3).filterMap (fun ih =>
    if ih.dangerous_usage && !ih.sanitization_detected then
      some ("Manipulação insegura de entrada: " ++ ih.source)
    else none)

/-- The suspicious-segment key issues (always empty for analyzer-produced
verdicts). -/
def segmentIssues (s : ScriptResult) : List String :=
  ((s.suspicious_code_segments.getD []).take 3).map (fun sg =>
    "Código suspeito: " ++ (match sg.matched with
      | some m => m
      | none => sg.function))

/-- The subtype chosen for a high-risk script record. -/
def highScriptSubtype (s : ScriptResult) : String :=
  if s.obfuscation_detected then "obfuscated_script"
  else if (s.suspicious_code_segments.getD []).any (fun sg =>
      strContains "user_input_with_dangerous_function" sg.type) then
    "unsafe_input_handling"
  else "high_risk_script"

/-- The records contributed by one script verdict in
`_find_script_vulnerabilities`: an Alto record for a high verdict (building
its key issues can raise), a Médio record for a medium verdict scoring at
least 60, nothing otherwise. -/
def scriptVulnOf (url : String) (screenshotPath : Option String)
    (s : ScriptResult) : Except String (List Vuln) :=
  if s.risk_level == "high" then
    match collectHighIssues (s.dangerous_functions.take 3) with
    | Except.error e => Except.error e
    | Except.ok issues1 =>
      let issues := issues1 ++ inputHandlingIssues s ++ segmentIssues s
      let nDf := s.dangerous_functions.length
      let nUih := (s.user_input_handling.getD []).length
      let nSeg := (s.suspicious_code_segments.getD []).length
      Except.ok [
        { type := "script_xss",
          subtype := highScriptSubtype s,
          url := url,
          script_id := s.id,
          risk_score := some s.risk_score,
          key_issues := issues,
          vulnerability := "Script contém código que pode permitir ataques XSS",
          severity := "Alto",
          screenshot := screenshotPath,
          description := "Script de alto risco com pontuação " ++ toString s.risk_score
            ++ "/100. Contém " ++ toString nDf ++ " funções perigosas, "
            ++ toString nUih ++ " manipulações de entrada de usuário, e "
            ++ toString nSeg ++ " segmentos de código suspeitos.",
          recommendation := "Revisar o código JavaScript, implementar sanitização adequada para entradas de usuário, e evitar funções perigosas como eval(), document.write(), e atribuições diretas a innerHTML." } ]
  else if s.risk_level == "medium" && s.risk_score ≥ 60 then
    Except.ok [
      { type := "script_xss",
        subtype := "medium_risk_script",
        url := url,
        script_id := s.id,
        risk_score := some s.risk_score,
        vulnerability := "Script contém código potencialmente inseguro",
        severity := "Médio",
        screenshot := screenshotPath,
        description := "Script de médio risco com pontuação " ++ toString s.risk_score
          ++ "/100 que pode conter vulnerabilidades.",
        recommendation := "Revisar o código JavaScript e implementar sanitização adequada para entradas de usuário." } ]
  else Except.ok []

/-- Run a fallible per-item producer over a list, concatenating the
per-item record lists and propagating the first failure. -/
def traverseAppend {α β ε : Type} (f : α → Except ε (List β)) :
    List α → Except ε (List β)
  | [] => Except.ok []
  | x :: xs =>
    match f x with
    | Except.error e => Except.error e
    | Except.ok l =>
      match traverseAppend f xs with
      | Except.error e => Except.error e
      | Except.ok rest => Except.ok (l ++ rest)

/-- The `inline_script_xss` record for one suspicious inline script. -/
def inlineScriptVuln (url : String) (screenshotPath : Option String)
    (s : InlineScriptFinding) : Vuln :=
  { type := "inline_script_xss",
    subtype := "suspicious_inline_script",
    url := url,
    script_id := s.id,
    patterns := s.suspicious_patterns.take 5,
    vulnerability := "Script inline contém padrões suspeitos",
    severity := "Médio",
    screenshot := screenshotPath,
    description := "Script inline com " ++ toString s.suspicious_patterns.length
      ++ " padrões suspeitos que podem indicar vulnerabilidades XSS.",
    recommendation := "Revisar script inline. Considerar mover para arquivo externo e implementar validação adequada." }

/-- `_find_script_vulnerabilities`: the per-verdict records followed by one
Médio `inline_script_xss` record per suspicious inline script. -/
def findScriptVulns (url : String) (scriptResults : List ScriptResult)
    (inlineScripts : List InlineScriptFinding)
    (screenshotPath : Option String) : Except String (List Vuln) :=
  match traverseAppend (scriptVulnOf url screenshotPath) scriptResults with
  | Except.error e => Except.error e
  | Except.ok part1 =>
    Except.ok (part1 ++ inlineScripts.filterMap (fun s =>
      if s.suspicious then some (inlineScriptVuln url screenshotPath s) else none))

/-- The `url_xss` record for one suspicious link. -/
def linkVuln (url : String) (screenshotPath : Option String) (l : LinkInfo) : Vuln :=
  let vector := l.xss_vector.getD "Link suspeito"
  { type := "url_xss",
    subtype := "suspicious_link",
    url := url,
    link_url := l.href,
    link_text := l.text,
    vulnerability := vector,
    severity := "Médio",
    screenshot := screenshotPath,
    description := "Link contém potencial vetor de XSS: " ++ vector,
    recommendation := "Validar e sanitizar URLs antes de renderizar links." }

/-- The `pattern_xss` record for one raw-markup pattern match. -/
def patternVuln (url : String) (screenshotPath : Option String)
    (p : PatternMatchInfo) : Vuln :=
  { type := "pattern_xss",
    subtype := "suspicious_html_pattern",
    url := url,
    vulnerability := "Padrão de código suspeito encontrado",
    severity := "Médio",
    screenshot := screenshotPath,
    description := "Padrão de código suspeito que pode indicar vulnerabilidade XSS: "
      ++ p.matched,
    recommendation := "Revisar o código HTML e implementar sanitização adequada." }

/-- `_find_url_vulnerabilities`: Médio records for suspicious links and for
every raw-markup pattern match. -/
def findUrlVulns (url : String) (ha : HtmlAnalysis)
    (screenshotPath : Option String) : List Vuln :=
  (ha.links.filter (fun l => l.suspicious)).map (linkVuln url screenshotPath)
  ++ ha.suspicious_patterns.map (patternVuln url screenshotPath)

/-- `XSSDetector._correlate_analyses`: the four sub-passes concatenated in
order; a failure in the script pass aborts correlation (the page-level
handler in `analyze` then reports no findings). -/
def correlateAnalyses (url : String) (visual : Option VisualResults)
    (ha : HtmlAnalysis) (sa : ScriptAnalysisResults)
    (screenshotPath : Option String) : Except String (List Vuln) :=
  let iv := findInputVulns url visual ha sa.script_analysis screenshotPath
  let ev := findEventVulns url screenshotPath ha.event_handlers
  match findScriptVulns url sa.script_analysis ha.inline_scripts screenshotPath with
  | Except.error e => Except.error e
  | Except.ok sv =>
    Except.ok (iv ++ ev ++ sv ++ findUrlVulns url ha screenshotPath)

/-- The trimmed per-record summary `XSSDetector.generate_report` writes. -/
structure ReportVuln where
  type : String
  subtype : String
  url : String
  severity : String
  description : String
  recommendation : String
deriving Repr, DecidableEq

/-- The JSON payload `XSSDetector.generate_report` writes: counts by type
and severity plus the trimmed record list. -/
structure ReportData where
  total_vulnerabilities : Nat
  vulnerabilities_by_type : List (String × Nat)
  vulnerabilities_by_severity : List (String × Nat)
  vulnerabilities : List ReportVuln
deriving Repr, DecidableEq

/-- Increment a string-keyed counter dict (first-insertion key order). -/
def bumpCount (key : String) : List (String × Nat) → List (String × Nat)
  | [] => [(key, 1)]
  | kn :: rest =>
    if kn.1 = key then (kn.1, kn.2 + 1) :: rest else kn :: bumpCount key rest

/-- Build the report payload from a vulnerability list. -/
def mkReportData (vulns : List Vuln) : ReportData :=
  { total_vulnerabilities := vulns.length,
    vulnerabilities_by_type :=
      vulns.foldl (fun acc v => bumpCount v.type acc) [],
    vulnerabilities_by_severity :=
      vulns.foldl (fun acc v => bumpCount v.severity acc) [],
    vulnerabilities := vulns.map (fun v =>
      { type := v.type, subtype := v.subtype, url := v.url,
        severity := v.severity, description := v.description,
        recommendation := v.recommendation }) }

/-- `XSSDetector.generate_report`, with its file-system effect reified as
the list of (path, payload) writes it performs: an empty vulnerability
list returns `None` before any file is touched; otherwise the payload is
written to the output path, which is returned. -/
def xssGenerateReport (vulns : List Vuln) (outputPath : String) :
    Option String × List (String × ReportData) :=
  if vulns.isEmpty then (none, [])
  else (some outputPath, [(outputPath, mkReportData vulns)])

/-- Deduplication key of `ReportGenerator._deduplicate_vulnerabilities`. -/
def dedupKey (v : Vuln) : String × String × String := (v.url, v.type, v.description)

/-- The dedup loop with its `seen` set. -/
def dedupGo (seen : List (String × String × String)) : List Vuln → List Vuln
  | [] => []
  | v :: vs =>
    if dedupKey v ∈ seen then dedupGo seen vs
    else v :: dedupGo (dedupKey v :: seen) vs

/-- `ReportGenerator._deduplicate_vulnerabilities`: keep the first record
for each (url, type, description) key, in order. -/
def deduplicateVulnerabilities (l : List Vuln) : List Vuln := dedupGo [] l

/-- Lowercase the attribute names of a raw attribute list (the lenient
parser's normalisation, exposed for theorem statements). -/
def lowerAttrNames (attrs : List (String × String)) : List (String × String) :=
  attrs.map (fun av => (lowerStr av.1, av.2))

/-- Claim C4's notion of an offending attribute: name case-insensitively in
the event-attribute set, or value containing `javascript:`
case-insensitively. -/
def c4Offending (av : String × String) : Bool :=
  eventAttributes.contains (lowerStr av.1) || strContains "javascript:" (lowerStr av.2)

/-- Claim C4's suspicious condition over an element's attributes. -/
def c4ClaimedSuspicious (attrs : List (String × String)) : Bool :=
  attrs.any c4Offending

/-- Claim C4's "first offending attribute found in encounter order". -/
def c4FirstOffending (attrs : List (String × String)) : Option (String × String) :=
  attrs.find? c4Offending

/-- The offending finds one attribute of an `input` element contributes, in
the order the source encounters them: the event-attribute check, then the
`javascript:`-value check. -/
def inputAttrFinds (av : String × String) : List String :=
  (if eventAttributes.contains av.1 then
     ["Event handler: " ++ av.1 ++ "=" ++ av.2] else [])
  ++ (if strContains "javascript:" (lowerStr av.2) then
     ["JavaScript in attribute: " ++ av.1 ++ "=" ++ av.2] else [])

/-- The offending finds of an `input` element, in encounter order. -/
def inputOffendFinds (attrs : List (String × String)) : List String :=
  attrs.flatMap inputAttrFinds

/-- The offending finds one attribute of a `textarea` or `select` element
contributes (event attributes only — attribute values are never
scanned). -/
def textareaAttrFinds (av : String × String) : List String :=
  if eventAttributes.contains av.1 then
    ["Event handler: " ++ av.1 ++ "=" ++ av.2]
  else []

/-- The offending finds of a `textarea` element. -/
def textareaOffendFinds (attrs : List (String × String)) : List String :=
  attrs.flatMap textareaAttrFinds

/-- The offending find one option of a `select` element contributes. -/
def selectOptionFinds (o : OptionInfo) : List String :=
  if strContains "javascript:" (lowerStr o.value) then
    ["JavaScript in option value: " ++ o.value]
  else []

/-- The offending finds of a `select` element: `javascript:`-bearing option
values first, then event attributes. -/
def selectOffendFinds (attrs : List (String × String)) (options : List OptionInfo) :
    List String :=
  options.flatMap selectOptionFinds ++ attrs.flatMap textareaAttrFinds

/-- Claim C5's suspicious condition for an anchor: `javascript:` prefix, or
some decoded query-parameter value containing a needle — with the query
taken from any href carrying one, relative or absolute. -/
def c5ClaimedSuspicious (a : Anchor) : Bool :=
  if strStarts "javascript:" (lowerStr a.href) then true
  else (parseQsl (rawQueryOf a.href)).any (fun kv => suspiciousParamValue kv.2)

/-- The suspicious condition `_analyze_links` actually implements, written
out: a `javascript:` prefix; or an absolute `http:`/`https:`/`ftp:` URL
with a parseable query whose first value per parameter name contains a
needle; or an inline event attribute.  Relative parameter-bearing hrefs are
never scanned. -/
def c5AmendedSuspicious (a : Anchor) : Bool :=
  strStarts "javascript:" (lowerStr a.href)
  || (a.href.data.contains '?'
      && (strStarts "http:" (lowerStr a.href) || strStarts "https:" (lowerStr a.href)
          || strStarts "ftp:" (lowerStr a.href))
      && (match parseQueryParams a.href with
          | none => false
          | some ps => (firstValues ps).any (fun kv => suspiciousParamValue kv.2)))
  || a.attrs.any (fun av => eventAttributes.contains (lowerStr av.1))

/-- Claim C3's critical condition, with the needles as the claim lists
them, checked as substrings of the handler code. -/
def c3ClaimedCritical (handlers : List (String × String)) : Bool :=
  handlers.any (fun ec =>
    highRiskEvents.contains (lowerStr ec.1) &&
    eventDangerNeedles.any (fun d => strContains d ec.2))

/-- The needles of `_find_event_vulnerabilities` that can actually fire
against lowercased handler code (`innerHTML` cannot). -/
def effectiveEventNeedles : List String :=
  ["eval(", "function(", "document.write", "location"]

/-! Matcher lemmas: matches survive appending to the input -/

theorem self_mem_pStar (f : Char → Bool) (s : List Char) : s ∈ pStar f s := by
  cases s <;> simp [pStar]

theorem pLit_mono : ∀ (cs u r t : List Char), r ∈ pLit cs u → r ++ t ∈ pLit cs (u ++ t) := by
  intro cs
  induction cs with
  | nil =>
    intro u r t h
    simp only [pLit, List.mem_singleton] at h
    subst h
    simp [pLit]
  | cons c cs ih =>
    intro u r t h
    cases u with
    | nil => simp [pLit] at h
    | cons x xs =>
      simp only [pLit, List.cons_append] at h ⊢
      by_cases hx : x = c
      · rw [if_pos hx] at h ⊢
        exact ih xs r t h
      · rw [if_neg hx] at h
        simp at h

theorem pStar_mono (f : Char → Bool) :
    ∀ (u r t : List Char), r ∈ pStar f u → r ++ t ∈ pStar f (u ++ t) := by
  intro u
  induction u with
  | nil =>
    intro r t h
    simp only [pStar, List.mem_singleton] at h
    subst h
    simpa using self_mem_pStar f t
  | cons x xs ih =>
    intro r t h
    simp only [pStar, List.cons_append] at h ⊢
    rcases List.mem_cons.mp h with h1 | h2
    · subst h1
      simp
    · by_cases hx : f x
      · rw [if_pos hx] at h2 ⊢
        exact List.mem_cons_of_mem _ (ih r t h2)
      · rw [if_neg hx] at h2
        simp at h2

theorem pPlus_mono (f : Char → Bool) :
    ∀ (u r t : List Char), r ∈ pPlus f u → r ++ t ∈ pPlus f (u ++ t) := by
  intro u r t h
  cases u with
  | nil => simp [pPlus] at h
  | cons x xs =>
    simp only [pPlus, List.cons_append] at h ⊢
    by_cases hx : f x
    · rw [if_pos hx] at h ⊢
      exact pStar_mono f xs r t h
    · rw [if_neg hx] at h
      simp at h

theorem runPat_mono :
    ∀ (p : Pat) (u r t : List Char), r ∈ runPat p u → r ++ t ∈ runPat p (u ++ t) := by
  intro p
  induction p with
  | lit cs =>
    intro u r t h
    exact pLit_mono cs u r t h
  | ws =>
    intro u r t h
    exact pStar_mono isSpaceChar u r t h
  | cls cs =>
    intro u r t h
    cases u with
    | nil => simp [runPat] at h
    | cons x xs =>
      simp only [runPat, List.cons_append] at h ⊢
      by_cases hx : cs.contains x
      · rw [if_pos hx] at h ⊢
        simp only [List.mem_singleton] at h
        subst h
        simp
      · rw [if_neg hx] at h
        simp at h
  | nplus c =>
    intro u r t h
    exact pPlus_mono _ u r t h
  | seq p q ihp ihq =>
    intro u r t h
    simp only [runPat, List.mem_flatMap] at h ⊢
    obtain ⟨m, hm, hr⟩ := h
    exact ⟨m ++ t, ihp u m t hm, ihq m r t hr⟩
  | quoteBind k ih =>
    intro u r t h
    cases u with
    | nil => simp [runPat] at h
    | cons x xs =>
      simp only [runPat, List.cons_append] at h ⊢
      by_cases hx : quoteChars.contains x
      · rw [if_pos hx] at h ⊢
        exact ih x xs r t h
      · rw [if_neg hx] at h
        simp at h

theorem runPat_ne_nil_mono {p : Pat} {u : List Char} (t : List Char)
    (h : runPat p u ≠ []) : runPat p (u ++ t) ≠ [] := by
  obtain ⟨r, hr⟩ := List.exists_mem_of_ne_nil _ h
  intro hnil
  have := runPat_mono p u r t hr
  simp [hnil] at this

theorem reSearch_of_runPat_ne {p : Pat} {s : List Char} (h : runPat p s ≠ []) :
    reSearch p s = true := by
  cases s with
  | nil => simpa [reSearch, List.isEmpty_iff] using h
  | cons c cs =>
    simp only [reSearch, Bool.or_eq_true, Bool.not_eq_true']
    exact Or.inl (by simpa [List.isEmpty_iff] using h)

theorem reSearch_mono {p : Pat} {u : List Char} (t : List Char)
    (h : reSearch p u = true) : reSearch p (u ++ t) = true := by
  induction u with
  | nil =>
    simp only [reSearch, Bool.not_eq_true', List.isEmpty_eq_false] at h
    have : runPat p ([] ++ t) ≠ [] := runPat_ne_nil_mono t h
    simpa using reSearch_of_runPat_ne this
  | cons c cs ih =>
    simp only [reSearch, Bool.or_eq_true, Bool.not_eq_true', List.isEmpty_eq_false] at h
    rcases h with h1 | h2
    · have : runPat p ((c :: cs) ++ t) ≠ [] := runPat_ne_nil_mono t h1
      exact reSearch_of_runPat_ne this
    · have := ih h2
      simp only [List.cons_append, reSearch, Bool.or_eq_true]
      exact Or.inr this


/-! Scorer characterisation -/

theorem analyzeScript_dangerous_eq (content : List Char) (i : Nat) :
    (analyzeScriptSimplified content i).dangerous_functions =
      (highRiskPatterns.filter (fun np => reSearch np.2 content)).map
        (mkDangerFunc content "high")
      ++ (if (highRiskPatterns.filter (fun np => reSearch np.2 content)).isEmpty then
            (mediumRiskPatterns.filter (fun np => reSearch np.2 content)).map
              (mkDangerFunc content "medium")
          else []) := rfl

theorem analyzeScript_obf_eq (content : List Char) (i : Nat) :
    (analyzeScriptSimplified content i).obfuscation_detected = obfMatched content := rfl

theorem analyzeScript_score_eq (content : List Char) (i : Nat) :
    (analyzeScriptSimplified content i).risk_score =
      min 100 (scriptRawScore (analyzeScriptSimplified content i).dangerous_functions
        (obfMatched content)) := rfl

theorem analyzeScript_level_eq (content : List Char) (i : Nat) :
    (analyzeScriptSimplified content i).risk_level =
      levelBand (scriptRawScore (analyzeScriptSimplified content i).dangerous_functions
        (obfMatched content)) := rfl

theorem length_filter_risk_map (c : List Char) (r q : String) (l : List (String × Pat)) :
    ((l.map (mkDangerFunc c r)).filter (fun f => f.risk == q)).length =
      if r == q then l.length else 0 := by
  induction l with
  | nil => simp
  | cons x xs ih =>
    simp only [List.map_cons, List.filter_cons, mkDangerFunc]
    cases h : (r == q) with
    | true => simp only [h, if_true, List.length_cons, ih, if_pos rfl]
    | false => simp only [h, Bool.false_eq_true, if_false, ih]

theorem dangerous_high_count (content : List Char) (i : Nat) :
    (((analyzeScriptSimplified content i).dangerous_functions).filter
        (fun f => f.risk == "high")).length = numHighMatched content := by
  rw [analyzeScript_dangerous_eq, List.filter_append, List.length_append,
    length_filter_risk_map]
  have e1 : (("high" : String) == "high") = true := rfl
  have e2 : (("medium" : String) == "high") = false := rfl
  by_cases h : (highRiskPatterns.filter (fun np => reSearch np.2 content)).isEmpty
  · simp [h, length_filter_risk_map, e1, e2, numHighMatched]
  · simp only [Bool.not_eq_true] at h
    simp [h, e1, numHighMatched]

theorem dangerous_med_count (content : List Char) (i : Nat) :
    (((analyzeScriptSimplified content i).dangerous_functions).filter
        (fun f => f.risk == "medium")).length =
      if numHighMatched content = 0 then numMedMatched content else 0 := by
  rw [analyzeScript_dangerous_eq, List.filter_append, List.length_append,
    length_filter_risk_map]
  have e1 : (("high" : String) == "medium") = false := rfl
  have e2 : (("medium" : String) == "medium") = true := rfl
  by_cases h : (highRiskPatterns.filter (fun np => reSearch np.2 content)).isEmpty
  · have h0 : numHighMatched content = 0 := by
      unfold numHighMatched
      simpa [List.isEmpty_iff] using h
    simp [h, length_filter_risk_map, e1, e2, h0, numMedMatched]
  · have h0 : ¬ numHighMatched content = 0 := by
      unfold numHighMatched
      simp only [Bool.not_eq_true, List.isEmpty_eq_false] at h
      simpa [List.length_eq_zero] using h
    simp only [Bool.not_eq_true] at h
    simp [h, e1, h0]

theorem scriptRaw_eq_specRaw (content : List Char) (i : Nat) :
    scriptRawScore (analyzeScriptSimplified content i).dangerous_functions
        (obfMatched content)
      = 25 * numHighMatched content
        + 10 * (if numHighMatched content = 0 then numMedMatched content else 0)
        + (if obfMatched content then 20 else 0) := by
  unfold scriptRawScore
  rw [dangerous_high_count, dangerous_med_count]
  ring_nf

theorem analyzeScript_score_spec (content : List Char) (i : Nat) :
    (analyzeScriptSimplified content i).risk_score = c2SpecScore content := by
  rw [analyzeScript_score_eq, scriptRaw_eq_specRaw]
  rfl

theorem levelBand_min100 (r : Nat) : levelBand r = levelBand (min 100 r) := by
  unfold levelBand
  rcases Nat.le_total r 100 with h | h
  · rw [Nat.min_eq_right h]
  · have h1 : min 100 r = 100 := Nat.min_eq_left h
    rw [h1]
    have h70 : r ≥ 70 := le_trans (by omega) h
    simp [h70]

theorem analyzeScript_level_spec (content : List Char) (i : Nat) :
    (analyzeScriptSimplified content i).risk_level = c2SpecLevel content := by
  have hs : min 100 (scriptRawScore
      (analyzeScriptSimplified content i).dangerous_functions (obfMatched content))
      = c2SpecScore content := analyzeScript_score_spec content i
  rw [analyzeScript_level_eq, levelBand_min100, hs]
  rfl

/-! Count monotonicity under content extension -/

theorem numHighMatched_mono (s t : List Char) :
    numHighMatched s ≤ numHighMatched (s ++ t) := by
  unfold numHighMatched
  exact (List.monotone_filter_right highRiskPatterns
    (fun np h => reSearch_mono t h)).length_le

theorem numMedMatched_mono (s t : List Char) :
    numMedMatched s ≤ numMedMatched (s ++ t) := by
  unfold numMedMatched
  exact (List.monotone_filter_right mediumRiskPatterns
    (fun np h => reSearch_mono t h)).length_le

theorem obfMatched_mono {s : List Char} (t : List Char) (h : obfMatched s = true) :
    obfMatched (s ++ t) = true := by
  unfold obfMatched at h ⊢
  simp only [List.any_eq_true] at h ⊢
  obtain ⟨p, hp, hm⟩ := h
  exact ⟨p, hp, reSearch_mono t hm⟩

/-- Claim C2: the per-script risk score is `min(100, 25*high + 10*medium
(counted only with no high match) + 20 if obfuscated)` and the risk level
is banded at 70/40/10; in particular `eval(userInput)` scores 25, level
`low`. -/
theorem C2_script_risk_score (content : List Char) (i : Nat) (h : content ≠ []) :
    (analyzeScriptSimplified content i).risk_score = c2SpecScore content
    ∧ (analyzeScriptSimplified content i).risk_level = c2SpecLevel content
    ∧ (analyzeScriptSimplified "eval(userInput)".data 0).risk_score = 25
    ∧ (analyzeScriptSimplified "eval(userInput)".data 0).risk_level = "low" := by
  refine ⟨analyzeScript_score_spec content i, analyzeScript_level_spec content i, ?_, ?_⟩
  · decide
  · decide

theorem C2_script_risk_score_witness :
    ("eval(x)".data ≠ ([] : List Char))
    ∧ (analyzeScriptSimplified "eval(x)".data 0).risk_score = c2SpecScore "eval(x)".data := by
  refine ⟨by decide, (C2_script_risk_score "eval(x)".data 0 (by decide)).1⟩

/-- Claim C6 (amended): extending a script's content never decreases its
risk score provided either some high-risk signature already matched or at
most two medium-risk signatures matched (with three or more counted
medium-risk signatures and no high-risk match, a newly matching high-risk
signature suppresses the medium tally and the score can drop); and the
score always lies in [0, 100]. -/
theorem C6_monotonicity_amended :
    (∀ (s t : List Char) (i j : Nat),
        0 < numHighMatched s ∨ numMedMatched s ≤ 2 →
        (analyzeScriptSimplified s i).risk_score
          ≤ (analyzeScriptSimplified (s ++ t) j).risk_score)
    ∧ (∀ (s : List Char) (i : Nat),
        (analyzeScriptSimplified s i).risk_score ≤ 100
        ∧ 0 ≤ (analyzeScriptSimplified s i).risk_score) := by
  constructor
  · intro s t i j hcond
    rw [analyzeScript_score_eq, analyzeScript_score_eq,
      scriptRaw_eq_specRaw, scriptRaw_eq_specRaw]
    have hH := numHighMatched_mono s t
    have hM := numMedMatched_mono s t
    have hO : obfMatched s = true → obfMatched (s ++ t) = true := obfMatched_mono t
    cases ho : obfMatched s with
    | true =>
      rw [hO ho]
      by_cases h0 : numHighMatched s = 0 <;>
        by_cases h1 : numHighMatched (s ++ t) = 0 <;>
        simp only [h0, h1, if_true, if_false, ite_true, ite_false, reduceIte] <;>
        omega
    | false =>
      cases ho2 : obfMatched (s ++ t) <;>
        (by_cases h0 : numHighMatched s = 0 <;>
          by_cases h1 : numHighMatched (s ++ t) = 0 <;>
          simp only [h0, h1, if_true, if_false, ite_true, ite_false, reduceIte,
            Bool.false_eq_true] <;>
          omega)
  · intro s i
    rw [analyzeScript_score_eq]
    omega

theorem C6_monotonicity_witness :
    (0 < numHighMatched "eval(x)".data ∨ numMedMatched "eval(x)".data ≤ 2)
    ∧ (analyzeScriptSimplified "eval(x)".data 0).risk_score
        ≤ (analyzeScriptSimplified ("eval(x)".data ++ " eval(y)".data) 0).risk_score :=
  ⟨by decide,
   C6_monotonicity_amended.1 "eval(x)".data " eval(y)".data 0 0 (by decide)⟩

/-- Counterexample to claim C6 as stated: a script matching three
medium-risk signatures scores 30, and appending content that makes one
high-risk signature match (and no other) drops the score to 25. -/
theorem C6_counterexample :
    numHighMatched ".ajax( fetch( XMLHttpRequest".data = 0
    ∧ numHighMatched (".ajax( fetch( XMLHttpRequest".data ++ ";eval(x)".data) = 1
    ∧ (analyzeScriptSimplified ".ajax( fetch( XMLHttpRequest".data 0).risk_score = 30
    ∧ (analyzeScriptSimplified
        (".ajax( fetch( XMLHttpRequest".data ++ ";eval(x)".data) 0).risk_score = 25 := by
  exact ⟨by decide, by decide, by decide, by decide⟩

/-- Claim C1 (code bug in the source): a script verdict of level `high`
whose dangerous functions include a high-risk entry makes the script pass
read the absent `context` key (`xss_detector.py` line 309) and fail with a
`KeyError` instead of emitting the Alto `script_xss` record the claim
describes. -/
theorem C1_high_risk_script_keyerror :
    (analyzeScriptSimplified "eval(a);document.write(b);x.innerHTML=c".data 0).risk_level
      = "high"
    ∧ findScriptVulns "http://example.com/"
        [analyzeScriptSimplified "eval(a);document.write(b);x.innerHTML=c".data 0] [] none
      = Except.error "KeyError: context" := by
  exact ⟨by decide, rfl⟩

/-- Claim C9: `XSSDetector.generate_report` on an empty vulnerability list
returns a null path and performs no file write. -/
theorem C9_generate_report_empty (p : String) :
    xssGenerateReport [] p = (none, []) := rfl

/-! Deduplication lemmas -/

theorem dedupGo_sublist (l : List Vuln) :
    ∀ seen, (dedupGo seen l).Sublist l := by
  induction l with
  | nil => intro seen; simp [dedupGo]
  | cons v vs ih =>
    intro seen
    simp only [dedupGo]
    split
    · exact (ih seen).cons v
    · exact (ih (dedupKey v :: seen)).cons₂ v

theorem dedupGo_spec (l : List Vuln) :
    ∀ seen, (∀ v ∈ dedupGo seen l, dedupKey v ∉ seen)
      ∧ (dedupGo seen l).Pairwise (fun a b => dedupKey a ≠ dedupKey b) := by
  induction l with
  | nil => intro seen; simp [dedupGo]
  | cons v vs ih =>
    intro seen
    simp only [dedupGo]
    split
    · exact ih seen
    · rename_i hnot
      obtain ⟨ih1, ih2⟩ := ih (dedupKey v :: seen)
      refine ⟨?_, ?_⟩
      · intro w hw
        rcases List.mem_cons.mp hw with rfl | hw2
        · exact hnot
        · intro hc
          exact ih1 w hw2 (List.mem_cons_of_mem _ hc)
      · refine List.Pairwise.cons ?_ ih2
        intro w hw heq
        exact ih1 w hw (heq ▸ List.mem_cons_self _ _)

theorem dedupGo_fixed (m : List Vuln) :
    ∀ seen, (∀ v ∈ m, dedupKey v ∉ seen) →
      m.Pairwise (fun a b => dedupKey a ≠ dedupKey b) → dedupGo seen m = m := by
  induction m with
  | nil => intro seen _ _; simp [dedupGo]
  | cons v vs ih =>
    intro seen h1 h2
    simp only [dedupGo]
    rw [if_neg (h1 v (List.mem_cons_self _ _))]
    congr 1
    refine ih _ ?_ (List.pairwise_cons.mp h2).2
    intro w hw hc
    rcases List.mem_cons.mp hc with heq | hin
    · exact (List.pairwise_cons.mp h2).1 w hw heq.symm
    · exact h1 w (List.mem_cons_of_mem _ hw) hin

/-- Claim C7: deduplication by the (url, type, description) key is
idempotent, and the surviving records keep their relative order (the
output is a subsequence of the input). -/
theorem C7_dedup_idempotent (l : List Vuln) :
    deduplicateVulnerabilities (deduplicateVulnerabilities l) = deduplicateVulnerabilities l
    ∧ (deduplicateVulnerabilities l).Sublist l := by
  refine ⟨?_, dedupGo_sublist l []⟩
  unfold deduplicateVulnerabilities
  exact dedupGo_fixed _ [] (by intro v _ hc; exact List.not_mem_nil _ hc)
    (dedupGo_spec l []).2

/-! Event-handler pass lemmas -/

theorem char_toNat_ofNat_valid (n : Nat) (h : n < 55296) :
    (Char.ofNat n).toNat = n := by
  rw [Char.ofNat, dif_pos (Or.inl h)]
  simp [Char.ofNatAux, Char.toNat, UInt32.ofNat', UInt32.toNat, BitVec.toNat_ofNatLt]

theorem toLower_ne_H (c : Char) : Char.toLower c ≠ 'H' := by
  unfold Char.toLower
  intro h
  by_cases hc : c.toNat ≥ 65 ∧ c.toNat ≤ 90
  · rw [if_pos hc] at h
    have h2 := congrArg Char.toNat h
    rw [char_toNat_ofNat_valid (c.toNat + 32) (by omega)] at h2
    have h3 : ('H').toNat = 72 := rfl
    omega
  · rw [if_neg hc] at h
    subst h
    have h3 : ('H').toNat = 72 := rfl
    omega

theorem strContains_innerHTML_lower (s : String) :
    strContains "innerHTML" (lowerStr s) = false := by
  unfold strContains lowerStr
  simp only [decide_eq_false_iff_not]
  intro hinf
  have hmem : 'H' ∈ s.data.map Char.toLower := hinf.subset (by decide)
  rw [List.mem_map] at hmem
  obtain ⟨c, _, hc⟩ := hmem
  exact toLower_ne_H c hc

theorem needles_any_eq (c : String) :
    eventDangerNeedles.any (fun d => strContains d (lowerStr c))
      = effectiveEventNeedles.any (fun d => strContains d (lowerStr c)) := by
  simp [eventDangerNeedles, effectiveEventNeedles, List.any_cons, List.any_nil,
    strContains_innerHTML_lower]

theorem findCritical_iff (handlers : List (String × String)) :
    (findCriticalHandler handlers).isSome = true ↔
      ∃ ec ∈ handlers, highRiskEvents.contains (lowerStr ec.1) = true ∧
        ∃ d ∈ effectiveEventNeedles, strContains d (lowerStr ec.2) = true := by
  unfold findCriticalHandler
  rw [List.find?_isSome]
  constructor
  · rintro ⟨ec, hmem, hp⟩
    rw [Bool.and_eq_true] at hp
    refine ⟨ec, hmem, hp.1, ?_⟩
    have h2 := hp.2
    rw [needles_any_eq, List.any_eq_true] at h2
    obtain ⟨d, hd, hds⟩ := h2
    exact ⟨d, hd, hds⟩
  · rintro ⟨ec, hmem, h1, d, hd, hds⟩
    refine ⟨ec, hmem, ?_⟩
    rw [Bool.and_eq_true]
    refine ⟨h1, ?_⟩
    rw [needles_any_eq, List.any_eq_true]
    exact ⟨d, hd, hds⟩

theorem mkEventVuln_severity (url : String) (sp : Option String) (b : EventBinding) :
    (mkEventVuln url sp b).severity =
      if (findCriticalHandler b.handlers).isSome then "Alto" else "Médio" := rfl

/-- Claim C3 (amended): the event pass emits exactly one record per
aggregated binding, and its severity is `Alto` exactly when some handler of
a high-risk event has lowercased code containing one of `eval(`,
`function(`, `document.write`, `location` — the source's fifth needle
`innerHTML` is compared case-sensitively against lowercased code and can
never fire; otherwise the severity is `Médio`. -/
theorem C3_event_pass_amended (url : String) (sp : Option String)
    (bindings : List EventBinding) :
    findEventVulns url sp bindings = bindings.map (mkEventVuln url sp)
    ∧ ∀ b : EventBinding,
        ((mkEventVuln url sp b).severity = "Alto" ↔
          ∃ ec ∈ b.handlers, highRiskEvents.contains (lowerStr ec.1) = true ∧
            ∃ d ∈ effectiveEventNeedles, strContains d (lowerStr ec.2) = true)
        ∧ ((mkEventVuln url sp b).severity ≠ "Alto" →
            (mkEventVuln url sp b).severity = "Médio") := by
  refine ⟨rfl, fun b => ⟨?_, ?_⟩⟩
  · rw [mkEventVuln_severity]
    cases hcrit : (findCriticalHandler b.handlers).isSome with
    | true =>
      rw [if_pos rfl]
      exact iff_of_true rfl ((findCritical_iff b.handlers).mp hcrit)
    | false =>
      rw [if_neg (by simp [hcrit])]
      refine iff_of_false (by decide) ?_
      intro hex
      rw [← findCritical_iff b.handlers] at hex
      rw [hcrit] at hex
      exact Bool.false_ne_true hex
  · rw [mkEventVuln_severity]
    cases hcrit : (findCriticalHandler b.handlers).isSome with
    | true => intro hne; exact absurd (if_pos rfl) hne
    | false => intro _; exact if_neg (by simp [hcrit])

/-- Counterexample to claim C3 as stated: an `onclick` handler whose code
contains the substring `innerHTML` satisfies the claim's Alto condition but
the pass emits a Médio record (the needle is compared against lowercased
code). -/
theorem C3_counterexample :
    c3ClaimedCritical [("onclick", "a.innerHTML=b")] = true
    ∧ (mkEventVuln "http://example.com/" none
        { tag_name := "div", handlers := [("onclick", "a.innerHTML=b")] }).severity
      = "Médio" := by
  exact ⟨by decide, rfl⟩

/-! Input-surface pass lemmas -/

theorem list_isEmpty_append {α : Type} (l1 l2 : List α) :
    (l1 ++ l2).isEmpty = (l1.isEmpty && l2.isEmpty) := by
  cases l1 <;> cases l2 <;> simp

theorem foldl_susp_vec {α : Type} (g : InputInfo → α → InputInfo) (f : α → List String)
    (hg : ∀ st x, (g st x).suspicious = (st.suspicious || !(f x).isEmpty)
        ∧ (g st x).xss_vector = ((f x).getLast?).or st.xss_vector) :
    ∀ (l : List α) (st : InputInfo),
      ((l.foldl g st).suspicious = (st.suspicious || !(l.flatMap f).isEmpty))
      ∧ ((l.foldl g st).xss_vector = ((l.flatMap f).getLast?).or st.xss_vector) := by
  intro l
  induction l with
  | nil => intro st; simp
  | cons x xs ih =>
    intro st
    rw [List.foldl_cons]
    obtain ⟨ih1, ih2⟩ := ih (g st x)
    obtain ⟨hs, hv⟩ := hg st x
    constructor
    · rw [ih1, hs, List.flatMap_cons, list_isEmpty_append, Bool.not_and, Bool.or_assoc]
    · rw [ih2, hv, List.flatMap_cons, List.getLast?_append, Option.or_assoc]

theorem inputAttrStep_spec (st : InputInfo) (av : String × String) :
    (inputAttrStep st av).suspicious = (st.suspicious || !(inputAttrFinds av).isEmpty)
    ∧ (inputAttrStep st av).xss_vector = ((inputAttrFinds av).getLast?).or st.xss_vector := by
  unfold inputAttrStep inputAttrFinds
  cases h3 : ["type", "name", "id", "value"].contains av.1 <;>
    cases h1 : eventAttributes.contains av.1 <;>
    cases h2 : strContains "javascript:" (lowerStr av.2) <;>
    simp [Option.or]

theorem textareaAttrStep_spec (st : InputInfo) (av : String × String) :
    (textareaAttrStep st av).suspicious = (st.suspicious || !(textareaAttrFinds av).isEmpty)
    ∧ (textareaAttrStep st av).xss_vector
        = ((textareaAttrFinds av).getLast?).or st.xss_vector := by
  unfold textareaAttrStep textareaAttrFinds
  cases h3 : ["name", "id"].contains av.1 <;>
    cases h1 : eventAttributes.contains av.1 <;>
    simp [Option.or]

theorem selectOptionStep_spec (st : InputInfo) (o : OptionInfo) :
    (selectOptionStep st o).suspicious = (st.suspicious || !(selectOptionFinds o).isEmpty)
    ∧ (selectOptionStep st o).xss_vector
        = ((selectOptionFinds o).getLast?).or st.xss_vector := by
  unfold selectOptionStep selectOptionFinds
  cases h1 : strContains "javascript:" (lowerStr o.value) <;> simp [Option.or]

theorem analyzeInputTag_spec (attrs : List (String × String)) (p : Bool) :
    (analyzeInputTag attrs p).suspicious = !(inputOffendFinds attrs).isEmpty
    ∧ (analyzeInputTag attrs p).xss_vector = (inputOffendFinds attrs).getLast? := by
  unfold analyzeInputTag inputOffendFinds
  have h := foldl_susp_vec inputAttrStep inputAttrFinds inputAttrStep_spec attrs
  obtain ⟨h1, h2⟩ := h _
  refine ⟨?_, ?_⟩
  · rw [h1]; rfl
  · rw [h2]; exact Option.or_none

theorem analyzeTextareaTag_spec (attrs : List (String × String)) (text : String) (p : Bool) :
    (analyzeTextareaTag attrs text p).suspicious = !(textareaOffendFinds attrs).isEmpty
    ∧ (analyzeTextareaTag attrs text p).xss_vector = (textareaOffendFinds attrs).getLast? := by
  unfold analyzeTextareaTag textareaOffendFinds
  obtain ⟨h1, h2⟩ :=
    foldl_susp_vec textareaAttrStep textareaAttrFinds textareaAttrStep_spec attrs _
  refine ⟨?_, ?_⟩
  · rw [h1]; rfl
  · rw [h2]; exact Option.or_none

theorem analyzeSelectTag_spec (attrs : List (String × String)) (options : List OptionInfo)
    (p : Bool) :
    (analyzeSelectTag attrs options p).suspicious
      = !(selectOffendFinds attrs options).isEmpty
    ∧ (analyzeSelectTag attrs options p).xss_vector
      = (selectOffendFinds attrs options).getLast? := by
  unfold analyzeSelectTag selectOffendFinds
  obtain ⟨ho1, ho2⟩ :=
    foldl_susp_vec selectOptionStep selectOptionFinds selectOptionStep_spec options _
  obtain ⟨ha1, ha2⟩ :=
    foldl_susp_vec textareaAttrStep textareaAttrFinds textareaAttrStep_spec attrs
      (options.foldl selectOptionStep _)
  refine ⟨?_, ?_⟩
  · rw [ha1, ho1, list_isEmpty_append, Bool.not_and]
    rfl
  · rw [ha2, ho2, List.getLast?_append]
    exact congrArg (fun z => (attrs.flatMap textareaAttrFinds).getLast?.or z)
      Option.or_none

/-- Claim C4 (amended): the structural analyzer lowercases attribute names
during the parse and then, for `input` elements, flags event-attribute
names and `javascript:`-bearing attribute values; for `textarea` elements
only event-attribute names (attribute values are never scanned); for
`select` elements `javascript:`-bearing option values and event-attribute
names; and `xss_vector` records the last offending find in encounter order
(each find overwrites the previous one), not the first. -/
theorem C4_inputs_amended (attrs : List (String × String)) (text : String)
    (options : List OptionInfo) (p : Bool) :
    (parseInputs [FormField.inputTag attrs p]
        = [analyzeInputTag (lowerAttrNames attrs) p]
      ∧ (analyzeInputTag (lowerAttrNames attrs) p).suspicious
          = !(inputOffendFinds (lowerAttrNames attrs)).isEmpty
      ∧ (analyzeInputTag (lowerAttrNames attrs) p).xss_vector
          = (inputOffendFinds (lowerAttrNames attrs)).getLast?)
    ∧ (parseInputs [FormField.textareaTag attrs text p]
        = [analyzeTextareaTag (lowerAttrNames attrs) text p]
      ∧ (analyzeTextareaTag (lowerAttrNames attrs) text p).suspicious
          = !(textareaOffendFinds (lowerAttrNames attrs)).isEmpty
      ∧ (analyzeTextareaTag (lowerAttrNames attrs) text p).xss_vector
          = (textareaOffendFinds (lowerAttrNames attrs)).getLast?)
    ∧ (parseInputs [FormField.selectTag attrs options p]
        = [analyzeSelectTag (lowerAttrNames attrs) options p]
      ∧ (analyzeSelectTag (lowerAttrNames attrs) options p).suspicious
          = !(selectOffendFinds (lowerAttrNames attrs) options).isEmpty
      ∧ (analyzeSelectTag (lowerAttrNames attrs) options p).xss_vector
          = (selectOffendFinds (lowerAttrNames attrs) options).getLast?) := by
  refine ⟨⟨rfl, analyzeInputTag_spec _ p⟩,
    ⟨rfl, analyzeTextareaTag_spec _ text p⟩,
    ⟨rfl, analyzeSelectTag_spec _ options p⟩⟩

/-- Counterexample to claim C4 as stated: a `textarea` whose attribute
value contains `javascript:` satisfies the claim's suspicious condition but
is not flagged; and an `input` with two offending attributes records the
last one in `xss_vector`, not the first. -/
theorem C4_counterexample :
    c4ClaimedSuspicious [("data-url", "javascript:alert(1)")] = true
    ∧ (parseInputs [FormField.textareaTag [("data-url", "javascript:alert(1)")] "" false]).map
        (fun i => i.suspicious) = [false]
    ∧ (c4FirstOffending [("onclick", "a"), ("onerror", "b")]).map (fun av => av.1)
        = some "onclick"
    ∧ (parseInputs [FormField.inputTag [("onclick", "a"), ("onerror", "b")] false]).map
        (fun i => i.xss_vector) = [some "Event handler: onerror=b"] := by
  exact ⟨by decide, by decide, by decide, by decide⟩

/-! Link pass lemmas -/

theorem linkAttrStep_fold (attrs : List (String × String)) :
    ∀ st : LinkInfo, (attrs.foldl linkAttrStep st).suspicious
      = (st.suspicious || attrs.any (fun av => eventAttributes.contains (lowerStr av.1))) := by
  induction attrs with
  | nil => intro st; simp
  | cons av rest ih =>
    intro st
    rw [List.foldl_cons, ih, List.any_cons]
    unfold linkAttrStep
    cases h : eventAttributes.contains (lowerStr av.1) <;> simp

theorem linkParamStep_fold (ps : List (String × String)) :
    ∀ st : LinkInfo, (ps.foldl linkParamStep st).suspicious
      = (st.suspicious || ps.any (fun kv => suspiciousParamValue kv.2)) := by
  induction ps with
  | nil => intro st; simp
  | cons kv rest ih =>
    intro st
    rw [List.foldl_cons, ih, List.any_cons]
    unfold linkParamStep
    cases h : suspiciousParamValue kv.2 <;> simp

theorem processLink_suspicious (a : Anchor) :
    (processLink a).suspicious = c5AmendedSuspicious a := by
  unfold processLink c5AmendedSuspicious
  rw [linkAttrStep_fold]
  cases hjs : strStarts "javascript:" (lowerStr a.href)
  · cases hq : a.href.data.contains '?'
    · simp
    · cases habs : (strStarts "http:" (lowerStr a.href)
          || strStarts "https:" (lowerStr a.href) || strStarts "ftp:" (lowerStr a.href))
      · simp
      · cases hp : parseQueryParams a.href with
        | none => simp [hp]
        | some ps => simp [hp, linkParamStep_fold]
  · simp

/-- Claim C5 (amended): an anchor is flagged when its href starts with
`javascript:` (case-insensitively), or when it is an absolute
`http:`/`https:`/`ftp:` URL whose parsed query's first value per parameter
name contains `<script`, `javascript:`, `onerror=` or `onload=`
(case-insensitively), or when it carries an inline event attribute; a
relative href containing `?` is retained as parameter-bearing but its
parameters are never decoded or scanned; a `urlparse` failure is treated as
"no parameters"; and an anchor is retained only if suspicious or
parameter-bearing. -/
theorem C5_links_amended (anchors : List Anchor) :
    (∀ a : Anchor, (processLink a).suspicious = c5AmendedSuspicious a)
    ∧ analyzeLinks anchors
        = (anchors.map processLink).filter (fun li => li.suspicious || li.has_parameters) := by
  exact ⟨processLink_suspicious, rfl⟩

/-- Counterexample to claim C5 as stated: a relative href carrying a query
whose decoded value contains `<script` is marked parameter-bearing but not
suspicious; and in an absolute URL a repeated parameter name whose second
value contains `<script` is not flagged (only the first value per name is
scanned). -/
theorem C5_counterexample :
    c5ClaimedSuspicious { href := "page?q=<script>alert(1)" } = true
    ∧ (processLink { href := "page?q=<script>alert(1)" }).suspicious = false
    ∧ (processLink { href := "page?q=<script>alert(1)" }).has_parameters = true
    ∧ c5ClaimedSuspicious { href := "http://x/p?a=1&a=<script" } = true
    ∧ (processLink { href := "http://x/p?a=1&a=<script" }).suspicious = false
    ∧ (processLink { href := "http://x/p?a=1&a=<script" }).has_parameters = true := by
  exact ⟨by decide, by decide, by decide, by decide, by decide, by decide⟩

/-! Visual fallback and severity invariants -/

theorem filterMap_ite_eq_filter_map {α β : Type} (p : α → Bool) (f : α → β) (l : List α) :
    l.filterMap (fun x => if p x then some (f x) else none) = (l.filter p).map f := by
  induction l with
  | nil => rfl
  | cons x xs ih =>
    cases h : p x <;> simp [List.filterMap_cons, List.filter_cons, h, ih]

/-- Claim C8: a screenshot path that does not name an existing readable
image — whether the path does not exist or `cv2.imread` cannot decode the
file — makes the visual analyzer return `None` rather than raise, the
detector passes `None` into correlation, and the input-surface pass then
emits one Médio `input_xss` record per structurally suspicious input. -/
theorem C8_missing_screenshot (env : VaEnv) (path : String) (url : String)
    (ha : HtmlAnalysis) (srs : List ScriptResult) (sp : Option String)
    (h : env.pathExists path = false ∨ env.imread path = none) :
    visualAnalyze env path = none
    ∧ detectorVisual env (some path) = none
    ∧ findInputVulns url none ha srs sp
        = (ha.inputs.filter (fun i => i.suspicious)).map (inputVulnNoVisual url sp)
    ∧ ∀ i : InputInfo, (inputVulnNoVisual url sp i).type = "input_xss"
        ∧ (inputVulnNoVisual url sp i).severity = "Médio" := by
  have hva : visualAnalyze env path = none := by
    unfold visualAnalyze
    rcases h with h | h
    · exact if_pos h
    · by_cases hpe : env.pathExists path = false
      · exact if_pos hpe
      · rw [if_neg hpe, h]
  refine ⟨hva, ?_, ?_, fun i => ⟨rfl, rfl⟩⟩
  · show (if env.pathExists path then visualAnalyze env path else none) = none
    cases hpe : env.pathExists path
    · rfl
    · rw [if_pos rfl]
      exact hva
  · unfold findInputVulns
    exact filterMap_ite_eq_filter_map _ _ ha.inputs

theorem C8_missing_screenshot_witness :
    (({ pathExists := fun _ => false, imread := fun _ => none } : VaEnv).pathExists "shot.png"
        = false
      ∨ ({ pathExists := fun _ => false, imread := fun _ => none } : VaEnv).imread "shot.png"
        = none)
    ∧ visualAnalyze { pathExists := fun _ => false, imread := fun _ => none } "shot.png"
      = none
    ∧ (({ pathExists := fun _ => true, imread := fun _ => none } : VaEnv).pathExists
          "unreadable.png" = false
      ∨ ({ pathExists := fun _ => true, imread := fun _ => none } : VaEnv).imread
          "unreadable.png" = none)
    ∧ visualAnalyze { pathExists := fun _ => true, imread := fun _ => none } "unreadable.png"
      = none :=
  ⟨Or.inl rfl,
   (C8_missing_screenshot { pathExists := fun _ => false, imread := fun _ => none }
     "shot.png" "u" {} [] none (Or.inl rfl)).1,
   Or.inr rfl,
   (C8_missing_screenshot { pathExists := fun _ => true, imread := fun _ => none }
     "unreadable.png" "u" {} [] none (Or.inr rfl)).1⟩

theorem mem_findInputVulns {url : String} {visual : Option VisualResults}
    {ha : HtmlAnalysis} {srs : List ScriptResult} {sp : Option String} {v : Vuln}
    (hv : v ∈ findInputVulns url visual ha srs sp) :
    v.severity = "Alto" ∨ v.severity = "Médio" := by
  cases visual with
  | none =>
    unfold findInputVulns at hv
    rw [List.mem_filterMap] at hv
    obtain ⟨i, _, hi⟩ := hv
    by_cases hs : i.suspicious
    · rw [if_pos hs] at hi
      cases hi
      exact Or.inr rfl
    · rw [if_neg hs] at hi
      cases hi
  | some vr =>
    unfold findInputVulns at hv
    rw [List.mem_flatMap] at hv
    obtain ⟨vi, _, hv2⟩ := hv
    rw [List.mem_filterMap] at hv2
    obtain ⟨hi, _, hv3⟩ := hv2
    by_cases hc : (hi.suspicious || (dangerousEvidence hi.id hi.name srs).isSome)
    · rw [if_pos hc] at hv3
      cases hv3
      by_cases hd : (dangerousEvidence hi.id hi.name srs).isSome
      · left
        simp [inputVulnVisual, hd]
      · right
        simp [inputVulnVisual, hd]
    · rw [if_neg hc] at hv3
      cases hv3

theorem mem_findEventVulns {url : String} {sp : Option String}
    {bindings : List EventBinding} {v : Vuln}
    (hv : v ∈ findEventVulns url sp bindings) :
    v.severity = "Alto" ∨ v.severity = "Médio" := by
  unfold findEventVulns at hv
  rw [List.mem_map] at hv
  obtain ⟨b, _, hb⟩ := hv
  subst hb
  rw [mkEventVuln_severity]
  by_cases hc : (findCriticalHandler b.handlers).isSome
  · rw [if_pos hc]
    exact Or.inl rfl
  · rw [if_neg hc]
    exact Or.inr rfl

theorem traverseAppend_ok_mem {α β ε : Type} {f : α → Except ε (List β)} :
    ∀ {l : List α} {out : List β}, traverseAppend f l = Except.ok out →
      ∀ {v : β}, v ∈ out → ∃ x ∈ l, ∃ lx, f x = Except.ok lx ∧ v ∈ lx := by
  intro l
  induction l with
  | nil =>
    intro out h v hv
    unfold traverseAppend at h
    cases h
    cases hv
  | cons x xs ih =>
    intro out h v hv
    unfold traverseAppend at h
    cases hfx : f x with
    | error e => rw [hfx] at h; cases h
    | ok lx =>
      rw [hfx] at h
      cases hrest : traverseAppend f xs with
      | error e => rw [hrest] at h; cases h
      | ok rest =>
        rw [hrest] at h
        cases h
        rcases List.mem_append.mp hv with h1 | h2
        · exact ⟨x, List.mem_cons_self _ _, lx, hfx, h1⟩
        · obtain ⟨y, hy, ly, hfy, hvy⟩ := ih hrest h2
          exact ⟨y, List.mem_cons_of_mem _ hy, ly, hfy, hvy⟩

theorem scriptVulnOf_ok_mem {url : String} {sp : Option String} {s : ScriptResult}
    {lx : List Vuln} {v : Vuln} (h : scriptVulnOf url sp s = Except.ok lx)
    (hv : v ∈ lx) : v.severity = "Alto" ∨ v.severity = "Médio" := by
  unfold scriptVulnOf at h
  by_cases h1 : (s.risk_level == "high") = true
  · rw [if_pos h1] at h
    cases hci : collectHighIssues (s.dangerous_functions.take 3) with
    | error e => rw [hci] at h; cases h
    | ok issues =>
      rw [hci] at h
      cases h
      rw [List.mem_singleton] at hv
      subst hv
      exact Or.inl rfl
  · rw [if_neg h1] at h
    by_cases h2 : (s.risk_level == "medium" && decide (s.risk_score ≥ 60)) = true
    · rw [if_pos h2] at h
      cases h
      rw [List.mem_singleton] at hv
      subst hv
      exact Or.inr rfl
    · rw [if_neg h2] at h
      cases h
      cases hv

theorem mem_findScriptVulns_ok {url : String} {srs : List ScriptResult}
    {inl : List InlineScriptFinding} {sp : Option String} {out : List Vuln} {v : Vuln}
    (h : findScriptVulns url srs inl sp = Except.ok out) (hv : v ∈ out) :
    v.severity = "Alto" ∨ v.severity = "Médio" := by
  unfold findScriptVulns at h
  cases hta : traverseAppend (scriptVulnOf url sp) srs with
  | error e => rw [hta] at h; cases h
  | ok part1 =>
    rw [hta] at h
    cases h
    rcases List.mem_append.mp hv with h1 | h2
    · obtain ⟨s, _, lx, hok, hvlx⟩ := traverseAppend_ok_mem hta h1
      exact scriptVulnOf_ok_mem hok hvlx
    · rw [List.mem_filterMap] at h2
      obtain ⟨s, _, hs⟩ := h2
      by_cases hsusp : s.suspicious
      · rw [if_pos hsusp] at hs
        cases hs
        exact Or.inr rfl
      · rw [if_neg hsusp] at hs
        cases hs

theorem mem_findUrlVulns {url : String} {ha : HtmlAnalysis} {sp : Option String} {v : Vuln}
    (hv : v ∈ findUrlVulns url ha sp) :
    v.severity = "Alto" ∨ v.severity = "Médio" := by
  unfold findUrlVulns at hv
  rcases List.mem_append.mp hv with h1 | h2
  · rw [List.mem_map] at h1
    obtain ⟨l, _, hl⟩ := h1
    subst hl
    exact Or.inr rfl
  · rw [List.mem_map] at h2
    obtain ⟨p, _, hp⟩ := h2
    subst hp
    exact Or.inr rfl

/-- Claim C10: every record the correlation synthesizer emits (any of the
four sub-passes) carries severity `Alto` or `Médio`; `Baixo` and
`Informativo` are never emitted. -/
theorem C10_severity_invariant (url : String) (visual : Option VisualResults)
    (ha : HtmlAnalysis) (sa : ScriptAnalysisResults) (sp : Option String)
    (vulns : List Vuln)
    (hok : correlateAnalyses url visual ha sa sp = Except.ok vulns) :
    ∀ v ∈ vulns, v.severity = "Alto" ∨ v.severity = "Médio" := by
  unfold correlateAnalyses at hok
  cases hs : findScriptVulns url sa.script_analysis ha.inline_scripts sp with
  | error e => rw [hs] at hok; cases hok
  | ok sv =>
    rw [hs] at hok
    cases hok
    intro v hv
    rcases List.mem_append.mp hv with h123 | h4
    · rcases List.mem_append.mp h123 with h12 | h3
      · rcases List.mem_append.mp h12 with h1 | h2
        · exact mem_findInputVulns h1
        · exact mem_findEventVulns h2
      · exact mem_findScriptVulns_ok hs h3
    · exact mem_findUrlVulns h4

theorem C10_severity_invariant_witness :
    (correlateAnalyses "u" none { event_handlers := [{ tag_name := "a" }] }
        ⟨0, 0, 0, []⟩ none
      = Except.ok [mkEventVuln "u" none { tag_name := "a" }])
    ∧ ((mkEventVuln "u" none { tag_name := "a" }).severity = "Alto"
        ∨ (mkEventVuln "u" none { tag_name := "a" }).severity = "Médio") :=
  ⟨rfl,
   C10_severity_invariant "u" none { event_handlers := [{ tag_name := "a" }] }
     ⟨0, 0, 0, []⟩ none [mkEventVuln "u" none { tag_name := "a" }] rfl
     (mkEventVuln "u" none { tag_name := "a" }) (List.mem_singleton.mpr rfl)⟩
